import Mathlib

/-!
Shallow embedding of the NES 6502 emulator core of this repository:
the opcode table (src/cpu/opcode_array.rs), the status register
(src/cpu/cpuflags.rs), the instruction handlers (src/cpu/instructions.rs),
and the fetch-decode-execute loop with its helpers (src/cpu.rs).

Machine integers are modelled as Nat, reduced modulo 2^8 or 2^16 exactly
where the Rust code wraps.  Fallible operations (array-index panics,
unwrap panics, todo stubs) are modelled with Option / Except.
-/

set_option maxRecDepth 8192
set_option maxHeartbeats 1600000
set_option linter.unusedVariables false

namespace Nes

/-- Modelled from the spec: addressing_mode.rs is declared in lib.rs but not
present under src/; the spec's data model lists these 13 variants, and the
opcode tables reference each of them. -/
inductive AddressingMode
  | implicit
  | accumulator
  | immediate
  | zeroPage
  | zeroPage_X
  | zeroPage_Y
  | relative
  | absolute
  | absolute_X
  | absolute_Y
  | indirect
  | indirect_X
  | indirect_Y
  deriving DecidableEq

/-- Modelled from the spec: opcode/mnemonic.rs is declared in opcode.rs but
not present under src/; the spec states there are 56 official mnemonics and
the dispatcher in src/cpu.rs matches on exactly these 56 variants. -/
inductive Mnemonic
  | adc | and | asl | bcc | bcs | beq | bit | bmi | bne | bpl | brk | bvc
  | bvs | clc | cld | cli | clv | cmp | cpx | cpy | dec | dex | dey | eor
  | inc | inx | iny | jmp | jsr | lda | ldx | ldy | lsr | nop | ora | pha
  | php | pla | plp | rol | ror | rti | rts | sbc | sec | sed | sei | sta
  | stx | sty | tax | tay | tsx | txa | txs | tya
  deriving DecidableEq

/-- Opcode record, from src/opcode.rs: code, mnemonic, byte length, base
cycle count and addressing mode. -/
structure OpCode where
  code : Nat
  mnemonic : Mnemonic
  len : Nat
  cycles : Nat
  mode : AddressingMode
  deriving DecidableEq

/-- OpCode::new from src/opcode.rs. -/
def OpCode.new (code : Nat) (mnemonic : Mnemonic) (len cycles : Nat)
    (mode : AddressingMode) : OpCode :=
  { code := code, mnemonic := mnemonic, len := len, cycles := cycles, mode := mode }

/-- The 151-entry instruction list INSTRUCTION_ARRAY from
src/cpu/opcode_array.rs, translated entry by entry in source order
(including its duplicated 0xEE INC entry and the CLD/CLI/CLV entries that
carry Mnemonic::Clc). -/
def INSTRUCTION_ARRAY : List OpCode := [
  OpCode.new 0x69 .adc 2 2 .immediate,
  OpCode.new 0x65 .adc 2 3 .zeroPage,
  OpCode.new 0x75 .adc 2 4 .zeroPage_X,
  OpCode.new 0x6D .adc 3 4 .absolute,
  OpCode.new 0x7D .adc 3 4 .absolute_X,
  OpCode.new 0x79 .adc 3 4 .absolute_Y,
  OpCode.new 0x61 .adc 2 6 .indirect_X,
  OpCode.new 0x71 .adc 2 5 .indirect_Y,
  OpCode.new 0x29 .and 2 2 .immediate,
  OpCode.new 0x25 .and 2 3 .zeroPage,
  OpCode.new 0x35 .and 2 4 .zeroPage_X,
  OpCode.new 0x2D .and 3 4 .absolute,
  OpCode.new 0x3D .and 3 4 .absolute_X,
  OpCode.new 0x39 .and 3 4 .absolute_Y,
  OpCode.new 0x21 .and 2 6 .indirect_X,
  OpCode.new 0x31 .and 2 5 .indirect_Y,
  OpCode.new 0x0A .asl 1 2 .implicit,
  OpCode.new 0x06 .asl 2 5 .zeroPage,
  OpCode.new 0x16 .asl 2 6 .zeroPage_X,
  OpCode.new 0x0E .asl 3 6 .absolute,
  OpCode.new 0x1E .asl 3 7 .absolute_X,
  OpCode.new 0x90 .bcc 2 2 .relative,
  OpCode.new 0xB0 .bcs 2 2 .relative,
  OpCode.new 0xF0 .beq 2 2 .relative,
  OpCode.new 0x24 .bit 2 3 .zeroPage,
  OpCode.new 0x2C .bit 3 4 .absolute,
  OpCode.new 0x30 .bmi 2 2 .relative,
  OpCode.new 0xD0 .bne 2 2 .relative,
  OpCode.new 0x10 .bpl 2 2 .relative,
  OpCode.new 0x00 .brk 1 7 .implicit,
  OpCode.new 0x50 .bvc 2 2 .relative,
  OpCode.new 0x70 .bvs 2 2 .relative,
  OpCode.new 0x18 .clc 1 2 .implicit,
  OpCode.new 0xD8 .clc 1 2 .implicit,
  OpCode.new 0x58 .clc 1 2 .implicit,
  OpCode.new 0xB8 .clc 1 2 .implicit,
  OpCode.new 0xC9 .cmp 2 2 .immediate,
  OpCode.new 0xC5 .cmp 2 3 .zeroPage,
  OpCode.new 0xD5 .cmp 2 4 .zeroPage_X,
  OpCode.new 0xCD .cmp 3 4 .absolute,
  OpCode.new 0xDD .cmp 3 4 .absolute_X,
  OpCode.new 0xD9 .cmp 3 4 .absolute_Y,
  OpCode.new 0xC1 .cmp 2 6 .indirect_X,
  OpCode.new 0xD1 .cmp 2 5 .indirect_Y,
  OpCode.new 0xE0 .cpx 2 2 .immediate,
  OpCode.new 0xE4 .cpx 2 3 .zeroPage,
  OpCode.new 0xEC .cpx 3 4 .absolute,
  OpCode.new 0xC0 .cpy 2 2 .immediate,
  OpCode.new 0xC4 .cpy 2 3 .zeroPage,
  OpCode.new 0xCC .cpy 3 4 .absolute,
  OpCode.new 0xC6 .dec 2 5 .zeroPage,
  OpCode.new 0xD6 .dec 2 6 .zeroPage_X,
  OpCode.new 0xCE .dec 3 6 .absolute,
  OpCode.new 0xDE .dec 3 7 .absolute_X,
  OpCode.new 0xCA .dex 1 2 .implicit,
  OpCode.new 0x88 .dey 1 2 .implicit,
  OpCode.new 0x49 .eor 2 2 .immediate,
  OpCode.new 0x45 .eor 2 3 .zeroPage,
  OpCode.new 0x55 .eor 2 4 .zeroPage_X,
  OpCode.new 0x4D .eor 3 4 .absolute,
  OpCode.new 0x5D .eor 3 4 .absolute_X,
  OpCode.new 0x59 .eor 3 4 .absolute_Y,
  OpCode.new 0x41 .eor 2 6 .indirect_X,
  OpCode.new 0x51 .eor 2 5 .indirect_Y,
  OpCode.new 0xEE .inc 2 5 .zeroPage,
  OpCode.new 0xF6 .inc 2 6 .zeroPage_X,
  OpCode.new 0xEE .inc 3 6 .absolute,
  OpCode.new 0xFE .inc 3 7 .absolute_X,
  OpCode.new 0xE8 .inx 1 2 .implicit,
  OpCode.new 0xC8 .iny 1 2 .implicit,
  OpCode.new 0x4C .jmp 3 3 .absolute,
  OpCode.new 0x6C .jmp 3 5 .indirect,
  OpCode.new 0x20 .jsr 3 6 .absolute,
  OpCode.new 0xA9 .lda 2 2 .immediate,
  OpCode.new 0xA5 .lda 2 3 .zeroPage,
  OpCode.new 0xB5 .lda 2 4 .zeroPage_X,
  OpCode.new 0xAD .lda 3 4 .absolute,
  OpCode.new 0xBD .lda 3 4 .absolute_X,
  OpCode.new 0xB9 .lda 3 4 .absolute_Y,
  OpCode.new 0xA1 .lda 2 6 .indirect_X,
  OpCode.new 0xB1 .lda 2 5 .indirect_Y,
  OpCode.new 0xA2 .ldx 2 2 .immediate,
  OpCode.new 0xA6 .ldx 2 3 .zeroPage,
  OpCode.new 0xB6 .ldx 2 4 .zeroPage_Y,
  OpCode.new 0xAE .ldx 3 4 .absolute,
  OpCode.new 0xBE .ldx 3 4 .absolute_Y,
  OpCode.new 0xA0 .ldy 2 2 .immediate,
  OpCode.new 0xA4 .ldy 2 3 .zeroPage,
  OpCode.new 0xB4 .ldy 2 4 .zeroPage_X,
  OpCode.new 0xAC .ldy 3 4 .absolute,
  OpCode.new 0xBC .ldy 3 4 .absolute_X,
  OpCode.new 0x4A .lsr 1 2 .accumulator,
  OpCode.new 0x46 .lsr 2 5 .zeroPage,
  OpCode.new 0x56 .lsr 2 6 .zeroPage_X,
  OpCode.new 0x4E .lsr 3 6 .absolute,
  OpCode.new 0x5E .lsr 3 7 .absolute_X,
  OpCode.new 0xEA .nop 1 2 .implicit,
  OpCode.new 0x09 .ora 2 2 .immediate,
  OpCode.new 0x05 .ora 2 3 .zeroPage,
  OpCode.new 0x15 .ora 2 4 .zeroPage_X,
  OpCode.new 0x0D .ora 3 4 .absolute,
  OpCode.new 0x1D .ora 3 4 .absolute_X,
  OpCode.new 0x19 .ora 3 4 .absolute_Y,
  OpCode.new 0x01 .ora 2 6 .indirect_X,
  OpCode.new 0x11 .ora 2 5 .indirect_Y,
  OpCode.new 0x48 .pha 1 3 .implicit,
  OpCode.new 0x08 .php 1 3 .implicit,
  OpCode.new 0x68 .pla 1 4 .implicit,
  OpCode.new 0x28 .plp 1 4 .implicit,
  OpCode.new 0x2A .rol 1 2 .accumulator,
  OpCode.new 0x26 .rol 2 5 .zeroPage,
  OpCode.new 0x36 .rol 2 6 .zeroPage_X,
  OpCode.new 0x2E .rol 3 6 .absolute,
  OpCode.new 0x3E .rol 3 7 .absolute_X,
  OpCode.new 0x6A .ror 1 2 .accumulator,
  OpCode.new 0x66 .ror 2 5 .zeroPage,
  OpCode.new 0x76 .ror 2 6 .zeroPage_X,
  OpCode.new 0x6E .ror 3 6 .absolute,
  OpCode.new 0x7E .ror 3 7 .absolute_X,
  OpCode.new 0x40 .rti 1 6 .implicit,
  OpCode.new 0x60 .rts 1 6 .implicit,
  OpCode.new 0xE9 .sbc 2 2 .immediate,
  OpCode.new 0xE5 .sbc 2 3 .zeroPage,
  OpCode.new 0xF5 .sbc 2 4 .zeroPage_X,
  OpCode.new 0xED .sbc 3 4 .absolute,
  OpCode.new 0xFD .sbc 3 4 .absolute_X,
  OpCode.new 0xF9 .sbc 3 4 .absolute_Y,
  OpCode.new 0xE1 .sbc 2 6 .indirect_X,
  OpCode.new 0xF1 .sbc 2 5 .indirect_Y,
  OpCode.new 0x38 .sec 1 2 .implicit,
  OpCode.new 0xF8 .sed 1 2 .implicit,
  OpCode.new 0x78 .sei 1 2 .implicit,
  OpCode.new 0x85 .sta 2 3 .zeroPage,
  OpCode.new 0x95 .sta 2 4 .zeroPage_X,
  OpCode.new 0x8D .sta 3 4 .absolute,
  OpCode.new 0x9D .sta 3 5 .absolute_X,
  OpCode.new 0x99 .sta 3 5 .absolute_Y,
  OpCode.new 0x81 .sta 2 6 .indirect_X,
  OpCode.new 0x91 .sta 2 6 .indirect_Y,
  OpCode.new 0x86 .stx 2 3 .zeroPage,
  OpCode.new 0x96 .stx 2 4 .zeroPage_Y,
  OpCode.new 0x8E .stx 3 4 .absolute,
  OpCode.new 0x84 .sty 2 3 .zeroPage,
  OpCode.new 0x94 .sty 2 4 .zeroPage_Y,
  OpCode.new 0x8C .sty 3 4 .absolute,
  OpCode.new 0xAA .tax 1 2 .implicit,
  OpCode.new 0xA8 .tay 1 2 .implicit,
  OpCode.new 0xBA .tsx 1 2 .implicit,
  OpCode.new 0x8A .txa 1 2 .implicit,
  OpCode.new 0x9A .txs 1 2 .implicit,
  OpCode.new 0x98 .tya 1 2 .implicit
]

/-- LEN from src/cpu/opcode_array.rs: the padded table has 0xFF entries. -/
def LEN : Nat := 0xFF

/-- padded_array from src/cpu/opcode_array.rs: start from [None; LEN] and
store each list entry at index entry.code. -/
def padded_array : List (Option OpCode) :=
  INSTRUCTION_ARRAY.foldl (fun array entry => array.set entry.code (some entry))
    (List.replicate LEN none)

/-- INSTRUCTIONS from src/cpu/opcode_array.rs. -/
def INSTRUCTIONS : List (Option OpCode) := padded_array

/-- The two distinct panics of opcode_array::decode: indexing INSTRUCTIONS
out of bounds, and unwrapping a None entry (the not-recognized message). -/
inductive DecodeError
  | indexOutOfBounds
  | unknownOpcode
  deriving DecidableEq

/-- decode from src/cpu/opcode_array.rs: INSTRUCTIONS[raw] panics when raw
is not below LEN, and a None entry panics with the not-recognized message. -/
def decode (raw : Nat) : Except DecodeError OpCode :=
  match INSTRUCTIONS[raw]? with
  | none => .error .indexOutOfBounds
  | some none => .error .unknownOpcode
  | some (some op) => .ok op

/-! Status-flag bit masks and bitflags operations, from src/cpu/cpuflags.rs. -/

namespace CpuFlags

def CARRY : Nat := 0x01

def ZERO : Nat := 0x02

def INTERUPT_DISABLE : Nat := 0x04

def DECIMAL_MODE : Nat := 0x08

def BREAK : Nat := 0x10

def BREAK2 : Nat := 0x20

def OVERFLOW : Nat := 0x40

def NEGATIV : Nat := 0x80

/-- INIT from src/cpu/cpuflags.rs: BREAK2.bits | CARRY.bits. -/
def INIT : Nat := BREAK2 ||| CARRY

/-- bitflags contains: all bits of the mask are set. -/
def containsFlag (s f : Nat) : Bool := s &&& f == f

/-- bitflags insert. -/
def insertFlag (s f : Nat) : Nat := s ||| f

/-- bitflags remove: clear the mask bits (u8 complement of the mask). -/
def removeFlag (s f : Nat) : Nat := s &&& (0xFF ^^^ f)

/-- bitflags set: insert when the condition holds, else remove. -/
def setFlag (s f : Nat) (b : Bool) : Nat := if b then insertFlag s f else removeFlag s f

/-- bitflags from_bits_truncate: all 8 bits are defined flags, so this
keeps the low byte. -/
def from_bits_truncate (b : Nat) : Nat := b % 256

end CpuFlags

/-- STACK_RESET from src/cpu.rs. -/
def STACK_RESET : Nat := 0xFD

/-- STACK_START from src/cpu.rs. -/
def STACK_START : Nat := 0x0100

/-- PRG_ROM_START_ADDR from src/cpu.rs. -/
def PRG_ROM_START_ADDR : Nat := 0x0600

/-- PRG_ROM_EXEC_ADDR from src/cpu.rs: the reset vector address. -/
def PRG_ROM_EXEC_ADDR : Nat := 0xFFFC

/-- Length of the CPU memory array in src/cpu.rs: `memory: [u8; 0xFFFF]`. -/
def MEM_LEN : Nat := 0xFFFF

/-- CPU state from src/cpu.rs.  The memory array is modelled as its content
function; its length MEM_LEN is enforced by mem_read / mem_write below. -/
structure CPU where
  register_a : Nat
  register_x : Nat
  register_y : Nat
  status : Nat
  program_counter : Nat
  stack_ptr : Nat
  memory : Nat → Nat

/-- Default::default() for CPU from src/cpu.rs. -/
def CPU.default : CPU :=
  { register_a := 0, register_x := 0, register_y := 0, program_counter := 0,
    stack_ptr := STACK_RESET, status := CpuFlags.INIT, memory := fun _ => 0 }

/-- mem_read from the Memory impl in src/cpu.rs: `self.memory[addr]` on an
array of MEM_LEN bytes; an index at or past MEM_LEN panics (none).  The
stored content is a byte. -/
def CPU.mem_read (c : CPU) (addr : Nat) : Option Nat :=
  if addr < MEM_LEN then some (c.memory addr % 256) else none

/-- mem_write from the Memory impl in src/cpu.rs, with the same bounds
behaviour as mem_read. -/
def CPU.mem_write (c : CPU) (addr data : Nat) : Option CPU :=
  if addr < MEM_LEN then
    some { c with memory := fun a => if a = addr then data % 256 else c.memory a }
  else none

/-- Modelled from the spec: src/cpu/memory.rs (the Memory trait with its
16-bit helpers) is declared in src/cpu.rs but not present under src/.
Spec section 4.1: read_u16(a) = read(a) | read(a+1) << 8, little-endian. -/
def CPU.mem_read_u16 (c : CPU) (addr : Nat) : Option Nat := do
  let lo ← c.mem_read addr
  let hi ← c.mem_read (addr + 1)
  pure (lo ||| (hi <<< 8))

/-- reset from src/cpu.rs: zero A/X/Y, stack pointer to STACK_RESET, status
to CpuFlags::default() (INIT), then load PC from the reset vector.  The
memory array is not touched. -/
def CPU.reset (c : CPU) : Option CPU := do
  let c1 := { c with register_a := 0, register_x := 0, register_y := 0,
                     stack_ptr := STACK_RESET, status := CpuFlags.INIT }
  let pc ← c1.mem_read_u16 PRG_ROM_EXEC_ADDR
  pure { c1 with program_counter := pc }

/-- stack_pop from src/cpu.rs: increment S (u8 wrapping), then read from
STACK_START + S. -/
def CPU.stack_pop (c : CPU) : Option (CPU × Nat) :=
  let c1 : CPU := { c with stack_ptr := (c.stack_ptr + 1) % 256 }
  (c1.mem_read (STACK_START + c1.stack_ptr)).map (fun v => (c1, v))

/-- stack_push from src/cpu.rs: write at STACK_START + S, then decrement S
(u8 wrapping). -/
def CPU.stack_push (c : CPU) (data : Nat) : Option CPU :=
  (c.mem_write (STACK_START + c.stack_ptr) data).map
    (fun c1 => { c1 with stack_ptr := (c1.stack_ptr + 255) % 256 })

/-- stack_pop_u16 from src/cpu.rs: pop low, pop high, combine little-endian. -/
def CPU.stack_pop_u16 (c : CPU) : Option (CPU × Nat) := do
  let (c1, low) ← c.stack_pop
  let (c2, high) ← c1.stack_pop
  pure (c2, low ||| (high <<< 8))

/-- stack_push_u16 from src/cpu.rs: split little-endian, push high then low. -/
def CPU.stack_push_u16 (c : CPU) (data : Nat) : Option CPU := do
  let low := data % 256
  let high := data / 256 % 256
  let c1 ← c.stack_push high
  c1.stack_push low

/-- update_zero_flag from src/cpu.rs. -/
def CPU.update_zero_flag (c : CPU) (result : Nat) : CPU :=
  { c with status := CpuFlags.setFlag c.status CpuFlags.ZERO (result == 0) }

/-- update_negative_flag from src/cpu.rs. -/
def CPU.update_negative_flag (c : CPU) (result : Nat) : CPU :=
  { c with status := CpuFlags.setFlag c.status CpuFlags.NEGATIV (result >>> 7 == 1) }

/-- update_zero_and_negative_flags from src/cpu.rs. -/
def CPU.update_zero_and_negative_flags (c : CPU) (result : Nat) : CPU :=
  (c.update_zero_flag result).update_negative_flag result

/-- msb_to_carry_flag from src/cpu.rs. -/
def CPU.msb_to_carry_flag (c : CPU) (value : Nat) : CPU :=
  { c with status := CpuFlags.setFlag c.status CpuFlags.CARRY (value >>> 7 == 1) }

/-- lsb_to_carry_flag from src/cpu.rs. -/
def CPU.lsb_to_carry_flag (c : CPU) (value : Nat) : CPU :=
  { c with status := CpuFlags.setFlag c.status CpuFlags.CARRY (value &&& 1 == 1) }

/-- set_accumulator from src/cpu.rs. -/
def CPU.set_accumulator (c : CPU) (data : Nat) : CPU :=
  ({ c with register_a := data }).update_zero_and_negative_flags data

/-- set_memory from src/cpu.rs. -/
def CPU.set_memory (c : CPU) (addr data : Nat) : Option CPU :=
  (c.mem_write addr data).map (fun c1 => c1.update_zero_and_negative_flags data)

/-- get_operand_address from src/cpu.rs.  The wrapping_add calls on u8 and
u16 quantities appear as the explicit mod-256 / mod-65536 reductions; the
panic on Implicit / Accumulator / Relative / Indirect is none. -/
def CPU.get_operand_address (c : CPU) (mode : AddressingMode) : Option Nat :=
  match mode with
  | .immediate => some c.program_counter
  | .zeroPage => c.mem_read c.program_counter
  | .absolute => c.mem_read_u16 c.program_counter
  | .zeroPage_X =>
      (c.mem_read c.program_counter).map (fun pos => (pos + c.register_x) % 256)
  | .zeroPage_Y =>
      (c.mem_read c.program_counter).map (fun pos => (pos + c.register_y) % 256)
  | .absolute_X =>
      (c.mem_read_u16 c.program_counter).map (fun base => (base + c.register_x) % 65536)
  | .absolute_Y =>
      (c.mem_read_u16 c.program_counter).map (fun base => (base + c.register_y) % 65536)
  | .indirect_X => do
      let base ← c.mem_read c.program_counter
      let ptr := (base + c.register_x) % 256
      let lo ← c.mem_read ptr
      let hi ← c.mem_read ((ptr + 1) % 256)
      pure (lo ||| (hi <<< 8))
  | .indirect_Y => do
      let base ← c.mem_read c.program_counter
      let lo ← c.mem_read base
      let hi ← c.mem_read ((base + 1) % 256)
      pure (((lo ||| (hi <<< 8)) + c.register_y) % 65536)
  | .implicit => none
  | .accumulator => none
  | .relative => none
  | .indirect => none

/-- get_memory from src/cpu.rs. -/
def CPU.get_memory (c : CPU) (mode : AddressingMode) : Option (Nat × Nat) := do
  let addr ← c.get_operand_address mode
  let value ← c.mem_read addr
  pure (addr, value)

/-- branch from src/cpu.rs: when the condition holds, read the displacement
byte at PC, sign-extend it, and wrap-add it to PC+1. -/
def CPU.branch (c : CPU) (condition : Bool) : Option CPU :=
  if condition then
    (c.mem_read c.program_counter).map (fun data =>
      let disp := if data < 128 then data else 0xFF00 + data
      { c with program_counter := ((c.program_counter + 1) % 65536 + disp) % 65536 })
  else some c

/-- compare from src/cpu.rs. -/
def CPU.compare (c : CPU) (mode : AddressingMode) (w : Nat) : Option CPU := do
  let (_, data) ← c.get_memory mode
  let c1 := { c with status := CpuFlags.setFlag c.status CpuFlags.CARRY (decide (data ≤ w)) }
  pure (c1.update_zero_and_negative_flags ((w + 256 - data) % 256))

/-- add_to_accumulator from src/cpu.rs: 16-bit sum of A, the operand and
the carry bit; carry-out, truncated result, signed-overflow predicate, then
set_accumulator. -/
def CPU.add_to_accumulator (c : CPU) (data : Nat) : CPU :=
  let sum := c.register_a + data +
    (if CpuFlags.containsFlag c.status CpuFlags.CARRY then 1 else 0)
  let c1 := { c with status := CpuFlags.setFlag c.status CpuFlags.CARRY (decide (255 < sum)) }
  let result := sum % 256
  let pred := ((result ^^^ data) &&& (result ^^^ c1.register_a) &&& 0x80) != 0
  let c2 := { c1 with status := CpuFlags.setFlag c1.status CpuFlags.OVERFLOW pred }
  c2.set_accumulator result

/-! Instruction handlers, from src/cpu/instructions.rs, in source order. -/

/-- adc from src/cpu/instructions.rs. -/
def CPU.adc (c : CPU) (mode : AddressingMode) : Option CPU :=
  (c.get_memory mode).map (fun p => c.add_to_accumulator p.2)

/-- and from src/cpu/instructions.rs. -/
def CPU.and (c : CPU) (mode : AddressingMode) : Option CPU :=
  (c.get_memory mode).map (fun p => c.set_accumulator (c.register_a &&& p.2))

/-- asl_accumulator from src/cpu/instructions.rs. -/
def CPU.asl_accumulator (c : CPU) : CPU :=
  let data := c.register_a
  let c1 := c.msb_to_carry_flag data
  c1.set_accumulator ((data <<< 1) % 256)

/-- asl_addr from src/cpu/instructions.rs (the returned shifted byte is
discarded by the caller). -/
def CPU.asl_addr (c : CPU) (mode : AddressingMode) : Option CPU := do
  let (addr, data) ← c.get_memory mode
  let c1 := c.msb_to_carry_flag data
  c1.set_memory addr ((data <<< 1) % 256)

/-- asl from src/cpu/instructions.rs. -/
def CPU.asl (c : CPU) (mode : AddressingMode) : Option CPU :=
  if mode = .accumulator then some c.asl_accumulator else c.asl_addr mode

/-- bcc from src/cpu/instructions.rs. -/
def CPU.bcc (c : CPU) : Option CPU :=
  c.branch (!(CpuFlags.containsFlag c.status CpuFlags.CARRY))

/-- bcs from src/cpu/instructions.rs. -/
def CPU.bcs (c : CPU) : Option CPU :=
  c.branch (CpuFlags.containsFlag c.status CpuFlags.CARRY)

/-- beq from src/cpu/instructions.rs. -/
def CPU.beq (c : CPU) : Option CPU :=
  c.branch (CpuFlags.containsFlag c.status CpuFlags.ZERO)

/-- bit from src/cpu/instructions.rs. -/
def CPU.bit (c : CPU) (mode : AddressingMode) : Option CPU := do
  let (_, data) ← c.get_memory mode
  let result := c.register_a &&& data
  let c1 := c.update_zero_flag result
  let c2 := { c1 with
    status := CpuFlags.setFlag c1.status CpuFlags.OVERFLOW
      (decide (0 < data &&& CpuFlags.OVERFLOW)) }
  pure { c2 with
    status := CpuFlags.setFlag c2.status CpuFlags.NEGATIV
      (decide (0 < data &&& CpuFlags.NEGATIV)) }

/-- bmi from src/cpu/instructions.rs. -/
def CPU.bmi (c : CPU) : Option CPU :=
  c.branch (CpuFlags.containsFlag c.status CpuFlags.NEGATIV)

/-- bne from src/cpu/instructions.rs. -/
def CPU.bne (c : CPU) : Option CPU :=
  c.branch (!(CpuFlags.containsFlag c.status CpuFlags.ZERO))

/-- bpl from src/cpu/instructions.rs. -/
def CPU.bpl (c : CPU) : Option CPU :=
  c.branch (!(CpuFlags.containsFlag c.status CpuFlags.NEGATIV))

/-- bvc from src/cpu/instructions.rs. -/
def CPU.bvc (c : CPU) : Option CPU :=
  c.branch (!(CpuFlags.containsFlag c.status CpuFlags.OVERFLOW))

/-- bvs from src/cpu/instructions.rs. -/
def CPU.bvs (c : CPU) : Option CPU :=
  c.branch (CpuFlags.containsFlag c.status CpuFlags.OVERFLOW)

/-- clc from src/cpu/instructions.rs. -/
def CPU.clc (c : CPU) : CPU :=
  { c with status := CpuFlags.removeFlag c.status CpuFlags.CARRY }

/-- cld from src/cpu/instructions.rs. -/
def CPU.cld (c : CPU) : CPU :=
  { c with status := CpuFlags.removeFlag c.status CpuFlags.DECIMAL_MODE }

/-- cli from src/cpu/instructions.rs. -/
def CPU.cli (c : CPU) : CPU :=
  { c with status := CpuFlags.removeFlag c.status CpuFlags.INTERUPT_DISABLE }

/-- clv from src/cpu/instructions.rs. -/
def CPU.clv (c : CPU) : CPU :=
  { c with status := CpuFlags.removeFlag c.status CpuFlags.OVERFLOW }

/-- dec from src/cpu/instructions.rs: u8 wrapping_sub(1). -/
def CPU.dec (c : CPU) (mode : AddressingMode) : Option CPU := do
  let (addr, data) ← c.get_memory mode
  c.set_memory addr ((data + 255) % 256)

/-- dex from src/cpu/instructions.rs (its mode argument is unused). -/
def CPU.dex (c : CPU) (mode : AddressingMode) : CPU :=
  let x := (c.register_x + 255) % 256
  ({ c with register_x := x }).update_zero_and_negative_flags x

/-- dey from src/cpu/instructions.rs (its mode argument is unused). -/
def CPU.dey (c : CPU) (mode : AddressingMode) : CPU :=
  let y := (c.register_y + 255) % 256
  ({ c with register_y := y }).update_zero_and_negative_flags y

/-- eor from src/cpu/instructions.rs. -/
def CPU.eor (c : CPU) (mode : AddressingMode) : Option CPU :=
  (c.get_memory mode).map (fun p => c.set_accumulator (c.register_a ^^^ p.2))

/-- inc from src/cpu/instructions.rs: u8 wrapping_add(1). -/
def CPU.inc (c : CPU) (mode : AddressingMode) : Option CPU := do
  let (addr, data) ← c.get_memory mode
  c.set_memory addr ((data + 1) % 256)

/-- inx from src/cpu/instructions.rs. -/
def CPU.inx (c : CPU) : CPU :=
  let x := (c.register_x + 1) % 256
  ({ c with register_x := x }).update_zero_and_negative_flags x

/-- iny from src/cpu/instructions.rs. -/
def CPU.iny (c : CPU) : CPU :=
  let y := (c.register_y + 1) % 256
  ({ c with register_y := y }).update_zero_and_negative_flags y

/-- jmp from src/cpu/instructions.rs, with the 6502 page-boundary quirk on
the indirect vector; a mode other than Absolute or Indirect leaves the
state unchanged. -/
def CPU.jmp (c : CPU) (mode : AddressingMode) : Option CPU :=
  if mode = .absolute then
    (c.mem_read_u16 c.program_counter).map
      (fun addr => { c with program_counter := addr })
  else if mode = .indirect then do
    let addr ← c.mem_read_u16 c.program_counter
    let indirect_addr ←
      if addr &&& 0x00FF == 0x00FF then do
        let low ← c.mem_read addr
        let high ← c.mem_read (addr &&& 0xFF00)
        pure (low ||| (high <<< 8))
      else
        c.mem_read_u16 addr
    pure { c with program_counter := indirect_addr }
  else some c

/-- jsr from src/cpu/instructions.rs: push PC + 2 - 1, then jump to the
absolute operand. -/
def CPU.jsr (c : CPU) : Option CPU := do
  let c1 ← c.stack_push_u16 (c.program_counter + 2 - 1)
  let target ← c1.mem_read_u16 c1.program_counter
  pure { c1 with program_counter := target }

/-- lda from src/cpu/instructions.rs. -/
def CPU.lda (c : CPU) (mode : AddressingMode) : Option CPU :=
  (c.get_memory mode).map (fun p => c.set_accumulator p.2)

/-- ldx from src/cpu/instructions.rs. -/
def CPU.ldx (c : CPU) (mode : AddressingMode) : Option CPU :=
  (c.get_memory mode).map
    (fun p => ({ c with register_x := p.2 }).update_zero_and_negative_flags p.2)

/-- ldy from src/cpu/instructions.rs. -/
def CPU.ldy (c : CPU) (mode : AddressingMode) : Option CPU :=
  (c.get_memory mode).map
    (fun p => ({ c with register_y := p.2 }).update_zero_and_negative_flags p.2)

/-- lsr_accumulator from src/cpu/instructions.rs. -/
def CPU.lsr_accumulator (c : CPU) : CPU :=
  let data := c.register_a
  let c1 := c.lsb_to_carry_flag data
  c1.set_accumulator (data >>> 1)

/-- lsr_addr from src/cpu/instructions.rs (the returned shifted byte is
discarded by the caller). -/
def CPU.lsr_addr (c : CPU) (mode : AddressingMode) : Option CPU := do
  let (addr, data) ← c.get_memory mode
  let c1 := c.lsb_to_carry_flag data
  c1.set_memory addr (data >>> 1)

/-- lsr from src/cpu/instructions.rs. -/
def CPU.lsr (c : CPU) (mode : AddressingMode) : Option CPU :=
  if mode = .accumulator then some c.lsr_accumulator else c.lsr_addr mode

/-- ora from src/cpu/instructions.rs. -/
def CPU.ora (c : CPU) (mode : AddressingMode) : Option CPU :=
  (c.get_memory mode).map (fun p => c.set_accumulator (c.register_a ||| p.2))

/-- pha from src/cpu/instructions.rs (its mode argument is unused). -/
def CPU.pha (c : CPU) (mode : AddressingMode) : Option CPU :=
  c.stack_push c.register_a

/-- php from src/cpu/instructions.rs: pushes the live status byte as-is
(its mode argument is unused). -/
def CPU.php (c : CPU) (mode : AddressingMode) : Option CPU :=
  c.stack_push c.status

/-- pla from src/cpu/instructions.rs. -/
def CPU.pla (c : CPU) (mode : AddressingMode) : Option CPU :=
  (c.stack_pop).map
    (fun p => ({ p.1 with register_a := p.2 }).update_zero_and_negative_flags p.2)

/-- plp from src/cpu/instructions.rs: the popped byte becomes the status
verbatim via from_bits_truncate. -/
def CPU.plp (c : CPU) (mode : AddressingMode) : Option CPU :=
  (c.stack_pop).map
    (fun p => { p.1 with status := CpuFlags.from_bits_truncate p.2 })

/-- rol_accumulator from src/cpu/instructions.rs. -/
def CPU.rol_accumulator (c : CPU) : CPU :=
  let data := c.register_a
  let carry := CpuFlags.containsFlag c.status CpuFlags.CARRY
  let c1 := c.msb_to_carry_flag data
  let data1 := (data <<< 1) % 256
  let data2 := if carry then data1 ||| 1 else data1
  c1.set_accumulator data2

/-- rol_memory from src/cpu/instructions.rs. -/
def CPU.rol_memory (c : CPU) (mode : AddressingMode) : Option CPU := do
  let (addr, data) ← c.get_memory mode
  let carry := CpuFlags.containsFlag c.status CpuFlags.CARRY
  let c1 := c.msb_to_carry_flag data
  let data1 := (data <<< 1) % 256
  let data2 := if carry then data1 ||| 1 else data1
  c1.set_memory addr data2

/-- rol from src/cpu/instructions.rs. -/
def CPU.rol (c : CPU) (mode : AddressingMode) : Option CPU :=
  if mode = .accumulator then some c.rol_accumulator else c.rol_memory mode

/-- ror as written in src/cpu/instructions.rs: it dispatches to
rol_accumulator / rol_memory, not to the ror variants below. -/
def CPU.ror (c : CPU) (mode : AddressingMode) : Option CPU :=
  if mode = .accumulator then some c.rol_accumulator else c.rol_memory mode

/-- ror_accumulator from src/cpu/instructions.rs (present in the source but
never called by ror). -/
def CPU.ror_accumulator (c : CPU) : CPU :=
  let data := c.register_a
  let carry := CpuFlags.containsFlag c.status CpuFlags.CARRY
  let c1 := c.lsb_to_carry_flag data
  let data1 := data >>> 1
  let data2 := if carry then data1 ||| (1 <<< 7) else data1
  c1.set_accumulator data2

/-- ror_memory from src/cpu/instructions.rs (present in the source but
never called by ror). -/
def CPU.ror_memory (c : CPU) (mode : AddressingMode) : Option CPU := do
  let (addr, data) ← c.get_memory mode
  let carry := CpuFlags.containsFlag c.status CpuFlags.CARRY
  let c1 := c.lsb_to_carry_flag data
  let data1 := data >>> 1
  let data2 := if carry then data1 ||| (1 <<< 7) else data1
  c1.set_memory addr data2

/-- rti from src/cpu/instructions.rs. -/
def CPU.rti (c : CPU) : Option CPU := do
  let (c1, v) ← c.stack_pop
  let c2 := { c1 with status := CpuFlags.from_bits_truncate v }
  let c3 := { c2 with status := CpuFlags.removeFlag c2.status CpuFlags.BREAK }
  let c4 := { c3 with status := CpuFlags.insertFlag c3.status CpuFlags.BREAK2 }
  let (c5, pc) ← c4.stack_pop_u16
  pure { c5 with program_counter := pc }

/-- rts from src/cpu/instructions.rs (u16 wrapping on the +1). -/
def CPU.rts (c : CPU) : Option CPU :=
  (c.stack_pop_u16).map
    (fun p => { p.1 with program_counter := (p.2 + 1) % 65536 })

/-- sbc from src/cpu/instructions.rs: the operand is negated as i8 and
decremented (two's complement: -d - 1 = 255 - d for a byte d), then fed to
add_to_accumulator. -/
def CPU.sbc (c : CPU) (mode : AddressingMode) : Option CPU :=
  (c.get_memory mode).map (fun p => c.add_to_accumulator (255 - p.2))

/-- sec from src/cpu/instructions.rs. -/
def CPU.sec (c : CPU) : CPU :=
  { c with status := CpuFlags.insertFlag c.status CpuFlags.CARRY }

/-- sed from src/cpu/instructions.rs. -/
def CPU.sed (c : CPU) : CPU :=
  { c with status := CpuFlags.insertFlag c.status CpuFlags.DECIMAL_MODE }

/-- sei from src/cpu/instructions.rs. -/
def CPU.sei (c : CPU) : CPU :=
  { c with status := CpuFlags.insertFlag c.status CpuFlags.INTERUPT_DISABLE }

/-- sta from src/cpu/instructions.rs. -/
def CPU.sta (c : CPU) (mode : AddressingMode) : Option CPU := do
  let addr ← c.get_operand_address mode
  c.mem_write addr c.register_a

/-- stx from src/cpu/instructions.rs. -/
def CPU.stx (c : CPU) (mode : AddressingMode) : Option CPU := do
  let addr ← c.get_operand_address mode
  c.mem_write addr c.register_x

/-- sty from src/cpu/instructions.rs. -/
def CPU.sty (c : CPU) (mode : AddressingMode) : Option CPU := do
  let addr ← c.get_operand_address mode
  c.mem_write addr c.register_y

/-- tax from src/cpu/instructions.rs. -/
def CPU.tax (c : CPU) : CPU :=
  ({ c with register_x := c.register_a }).update_zero_and_negative_flags c.register_a

/-- tay from src/cpu/instructions.rs. -/
def CPU.tay (c : CPU) : CPU :=
  ({ c with register_y := c.register_a }).update_zero_and_negative_flags c.register_a

/-- txa from src/cpu/instructions.rs. -/
def CPU.txa (c : CPU) : CPU :=
  ({ c with register_a := c.register_x }).update_zero_and_negative_flags c.register_x

/-- tya from src/cpu/instructions.rs. -/
def CPU.tya (c : CPU) : CPU :=
  ({ c with register_a := c.register_y }).update_zero_and_negative_flags c.register_y

/-- Outcome of one iteration of run_with_callback in src/cpu.rs: either the
state handed to the callback before the next iteration, or the state at the
early return on Brk. -/
inductive StepOut
  | next (c : CPU)
  | halted (c : CPU)

/-- The dispatch match of run_with_callback in src/cpu.rs.  The Tsx and Txs
arms are todo!() in the source and panic, hence none.  The Brk arm is
handled by step before dispatch and never reaches this function. -/
def CPU.runInstruction (c : CPU) (op : OpCode) : Option CPU :=
  match op.mnemonic with
  | .adc => c.adc op.mode
  | .and => c.and op.mode
  | .asl => c.asl op.mode
  | .bcc => c.bcc
  | .bcs => c.bcs
  | .beq => c.beq
  | .bit => c.bit op.mode
  | .bmi => c.bmi
  | .bne => c.bne
  | .bpl => c.bpl
  | .brk => some c
  | .bvc => c.bvc
  | .bvs => c.bvs
  | .clc => some c.clc
  | .cld => some c.cld
  | .cli => some c.cli
  | .clv => some c.clv
  | .cmp => c.compare op.mode c.register_a
  | .cpx => c.compare op.mode c.register_x
  | .cpy => c.compare op.mode c.register_y
  | .dec => c.dec op.mode
  | .dex => some (c.dex op.mode)
  | .dey => some (c.dey op.mode)
  | .eor => c.eor op.mode
  | .inc => c.inc op.mode
  | .inx => some c.inx
  | .iny => some c.iny
  | .jmp => c.jmp op.mode
  | .jsr => c.jsr
  | .lda => c.lda op.mode
  | .ldx => c.ldx op.mode
  | .ldy => c.ldy op.mode
  | .lsr => c.lsr op.mode
  | .nop => some c
  | .ora => c.ora op.mode
  | .pha => c.pha op.mode
  | .php => c.php op.mode
  | .pla => c.pla op.mode
  | .plp => c.plp op.mode
  | .rol => c.rol op.mode
  | .ror => c.ror op.mode
  | .rti => c.rti
  | .rts => c.rts
  | .sbc => c.sbc op.mode
  | .sec => some c.sec
  | .sed => some c.sed
  | .sei => some c.sei
  | .sta => c.sta op.mode
  | .stx => c.stx op.mode
  | .sty => c.sty op.mode
  | .tax => some c.tax
  | .tay => some c.tay
  | .tsx => none
  | .txa => some c.txa
  | .txs => none
  | .tya => some c.tya

/-- One iteration of run_with_callback from src/cpu.rs: fetch the opcode
byte, advance PC, decode (a decode panic is none), return early on Brk,
dispatch, then the post-step PC fallback: when the handler left PC at its
post-fetch value, advance it by len - 1. -/
def CPU.step (c : CPU) : Option StepOut := do
  let raw ← c.mem_read c.program_counter
  let c1 := { c with program_counter := c.program_counter + 1 }
  let pcState := c1.program_counter
  let op ← (decode raw).toOption
  if op.mnemonic = .brk then
    pure (.halted c1)
  else do
    let c2 ← c1.runInstruction op
    let c3 :=
      if c2.program_counter = pcState then
        { c2 with program_counter := (c2.program_counter + (op.len - 1)) % 65536 }
      else c2
    pure (.next c3)

/-- Projection of a step outcome to the resulting CPU state. -/
def CPU.stepState (c : CPU) : Option CPU :=
  c.step.map (fun r => match r with | .next c1 => c1 | .halted c1 => c1)

/-- Finite memory images for concrete test states: a list of
address-value pairs, zero elsewhere. -/
def memOf (l : List (Nat × Nat)) : Nat → Nat :=
  fun a => ((l.find? (fun p => p.1 = a)).map Prod.snd).getD 0

/-- A CPU about to execute the single opcode byte b at 0x0600, with status
0x4D (carry, interrupt-disable, decimal and overflow flags set). -/
def flagOpProbe (b : Nat) : CPU :=
  { CPU.default with
      program_counter := 0x0600, status := 0x4D,
      memory := memOf [(0x0600, b)] }

/-- A CPU about to execute ROR in accumulator mode (0x6A) with A = 1 and
all flags clear. -/
def rorProbe : CPU :=
  { CPU.default with
      program_counter := 0x0600, status := 0, register_a := 1,
      memory := memOf [(0x0600, 0x6A)] }

/-- A CPU about to execute TSX (0xBA). -/
def tsxProbe : CPU :=
  { CPU.default with
      program_counter := 0x0600, memory := memOf [(0x0600, 0xBA)] }

/-- A CPU about to execute TXS (0x9A). -/
def txsProbe : CPU :=
  { CPU.default with
      program_counter := 0x0600, memory := memOf [(0x0600, 0x9A)] }

/-- A CPU about to execute BCC (0x90) with displacement byte d and the
carry flag clear, so the branch is taken. -/
def branchProbe (d : Nat) : CPU :=
  { CPU.default with
      program_counter := 0x0600, status := 0,
      memory := memOf [(0x0600, 0x90), (0x0601, d)] }

/-- A CPU whose next stack pop (at 0x01FD) yields the byte 0x00, with all
status bits set beforehand. -/
def plpProbe : CPU :=
  { CPU.default with
      stack_ptr := 0xFC, status := 0xFF, memory := memOf [] }

/-! Helper lemmas about the bitflags operations, used to extract single
flag bits from chains of setFlag updates. -/

theorem CpuFlags.containsFlag_two_pow (s i : Nat) :
    CpuFlags.containsFlag s (2 ^ i) = s.testBit i := by
  unfold CpuFlags.containsFlag
  rw [Nat.and_two_pow]
  cases h : s.testBit i
  · simpa using (Nat.two_pow_pos i).ne
  · simp

theorem CpuFlags.testBit_255 (i : Nat) (hi : i < 8) : Nat.testBit 255 i = true := by
  rw [show (255 : Nat) = 2 ^ 8 - 1 from rfl, Nat.testBit_two_pow_sub_one]
  simpa using hi

theorem CpuFlags.testBit_setFlag_same (s i : Nat) (b : Bool) (hi : i < 8) :
    (CpuFlags.setFlag s (2 ^ i) b).testBit i = b := by
  unfold CpuFlags.setFlag CpuFlags.insertFlag CpuFlags.removeFlag
  cases b
  · simp [Nat.testBit_land, Nat.testBit_xor, Nat.testBit_two_pow,
      CpuFlags.testBit_255 i hi]
  · simp [Nat.testBit_lor, Nat.testBit_two_pow]

theorem CpuFlags.testBit_setFlag_diff (s i j : Nat) (b : Bool) (hj : j < 8)
    (hij : i ≠ j) :
    (CpuFlags.setFlag s (2 ^ i) b).testBit j = s.testBit j := by
  unfold CpuFlags.setFlag CpuFlags.insertFlag CpuFlags.removeFlag
  cases b
  · simp [Nat.testBit_land, Nat.testBit_xor, Nat.testBit_two_pow,
      CpuFlags.testBit_255 j hj, hij]
  · simp [Nat.testBit_lor, Nat.testBit_two_pow, hij]

theorem CpuFlags.CARRY_eq_pow : CpuFlags.CARRY = 2 ^ 0 := rfl

theorem CpuFlags.ZERO_eq_pow : CpuFlags.ZERO = 2 ^ 1 := rfl

theorem CpuFlags.OVERFLOW_eq_pow : CpuFlags.OVERFLOW = 2 ^ 6 := rfl

theorem CpuFlags.NEGATIV_eq_pow : CpuFlags.NEGATIV = 2 ^ 7 := rfl

/-! Claim theorems. -/

/-- C1: the claim says the 256-entry table answers every official opcode
with its canonical record and fails with UnknownOpcode exactly on the
unofficial bytes.  In the code the instruction list misspells INC
zero-page as 0xEE (duplicating the INC absolute code, so 0xE6 decodes as
unknown although it is official), and the table only has 0xFF = 255
entries, so byte 0xFF fails with an index-out-of-bounds panic rather than
the unknown-opcode panic. -/
theorem opcode_table_inc_duplicate_bug :
    INSTRUCTION_ARRAY.length = 151 ∧
    (INSTRUCTION_ARRAY.filter (fun o => o.code == 0xEE)).length = 2 ∧
    (INSTRUCTION_ARRAY.filter (fun o => o.code == 0xE6)).length = 0 ∧
    INSTRUCTIONS.length = 0xFF ∧
    decode 0xE6 = .error .unknownOpcode ∧
    decode 0xFF = .error .indexOutOfBounds :=
  ⟨rfl, rfl, rfl, rfl, rfl, rfl⟩

/-- C2: the claim says CLD (0xD8), CLI (0x58) and CLV (0xB8) clear the D, I
and V flags.  In the code these three table entries carry Mnemonic::Clc, so
each of them clears the carry flag and leaves its own flag set: stepping
from status 0x4D (C, I, D and V set) yields status 0x4C in all three
cases. -/
theorem flag_ops_dispatch_bug :
    decode 0xD8 = .ok (OpCode.new 0xD8 .clc 1 2 .implicit) ∧
    decode 0x58 = .ok (OpCode.new 0x58 .clc 1 2 .implicit) ∧
    decode 0xB8 = .ok (OpCode.new 0xB8 .clc 1 2 .implicit) ∧
    ((flagOpProbe 0xD8).stepState).map (fun c => c.status) = some 0x4C ∧
    ((flagOpProbe 0x58).stepState).map (fun c => c.status) = some 0x4C ∧
    ((flagOpProbe 0xB8).stepState).map (fun c => c.status) = some 0x4C ∧
    0x4C &&& CpuFlags.DECIMAL_MODE = CpuFlags.DECIMAL_MODE ∧
    0x4C &&& CpuFlags.INTERUPT_DISABLE = CpuFlags.INTERUPT_DISABLE ∧
    0x4C &&& CpuFlags.OVERFLOW = CpuFlags.OVERFLOW ∧
    0x4C &&& CpuFlags.CARRY = 0 :=
  ⟨rfl, rfl, rfl, rfl, rfl, rfl, rfl, rfl, rfl, rfl⟩

/-- C3: the claim says ROR rotates right (with A = 1 and carry clear it
must produce A = 0 and carry set).  The code's ror dispatches to
rol_accumulator / rol_memory, so stepping ROR accumulator (0x6A) on A = 1
with carry clear produces A = 2 with carry clear, while the source's own
(never called) ror_accumulator produces the claimed A = 0 with carry
set. -/
theorem ror_rotates_left_bug :
    (rorProbe.stepState).map (fun c => (c.register_a, c.status &&& CpuFlags.CARRY))
      = some (2, 0) ∧
    (rorProbe.ror_accumulator).register_a = 0 ∧
    (rorProbe.ror_accumulator).status &&& CpuFlags.CARRY = CpuFlags.CARRY :=
  ⟨rfl, rfl, rfl⟩

/-- C4 counterexample: with P = 0x21 (the reset value) PHP pushes 0x21,
not P OR 0x30 = 0x31 (the pushed image lacks the B bit), and popping the
byte 0x00 with PLP leaves bit 5 (U) of P clear, not set. -/
theorem php_plp_bu_bits_cex :
    (CPU.default.php .implicit).map (fun c => c.memory (STACK_START + 0xFD))
      = some 0x21 ∧
    (0x21 : Nat) ||| 0x30 = 0x31 ∧ (0x21 : Nat) ≠ 0x31 ∧
    (0x21 : Nat) &&& CpuFlags.BREAK = 0 ∧
    (plpProbe.plp .implicit).map (fun c => c.status &&& CpuFlags.BREAK2) = some 0 ∧
    CpuFlags.BREAK2 ≠ 0 :=
  ⟨rfl, rfl, by decide, rfl, rfl, by decide⟩

/-- C4 amended: PHP pushes the live status byte verbatim (no bits forced)
and leaves the live P unchanged; PLP pops the byte into P verbatim, so all
eight bits of P, including bits 4 and 5, come from the popped byte. -/
theorem php_plp_verbatim (c : CPU) (mode : AddressingMode)
    (hsp : c.stack_ptr < 256) (hst : c.status < 256) :
    (c.php mode).map
        (fun c1 => (c1.memory (STACK_START + c.stack_ptr), c1.status, c1.stack_ptr))
      = some (c.status, c.status, (c.stack_ptr + 255) % 256) ∧
    (c.plp mode).map (fun c1 => (c1.status, c1.stack_ptr))
      = some (c.memory (STACK_START + (c.stack_ptr + 1) % 256) % 256,
          (c.stack_ptr + 1) % 256) := by
  constructor
  · unfold CPU.php CPU.stack_push CPU.mem_write
    rw [if_pos (by unfold STACK_START MEM_LEN; omega)]
    simp [Nat.mod_eq_of_lt hst]
  · have h : STACK_START + (c.stack_ptr + 1) % 256 < MEM_LEN := by
      have h2 : (c.stack_ptr + 1) % 256 < 256 := Nat.mod_lt _ (by omega)
      unfold STACK_START MEM_LEN
      omega
    unfold CPU.plp CPU.stack_pop CPU.mem_read CpuFlags.from_bits_truncate
    simp [h]

/-- C4 witness: the amended statement instantiated at the default CPU. -/
theorem php_plp_verbatim_witness :
    CPU.default.stack_ptr < 256 ∧ CPU.default.status < 256 ∧
    ((CPU.default.php .implicit).map
        (fun c1 => (c1.memory (STACK_START + CPU.default.stack_ptr), c1.status, c1.stack_ptr))
      = some (CPU.default.status, CPU.default.status, (CPU.default.stack_ptr + 255) % 256) ∧
    (CPU.default.plp .implicit).map (fun c1 => (c1.status, c1.stack_ptr))
      = some (CPU.default.memory (STACK_START + (CPU.default.stack_ptr + 1) % 256) % 256,
          (CPU.default.stack_ptr + 1) % 256)) :=
  ⟨by decide, by decide, php_plp_verbatim CPU.default .implicit (by decide) (by decide)⟩

/-- C5: the claim says the dispatcher handles all 56 mnemonics and that
TSX / TXS execute without failing.  The table decodes 0xBA and 0x9A to Tsx
and Txs, but both dispatcher arms are todo!() in src/cpu.rs and panic, so
a step on either opcode fails. -/
theorem tsx_txs_todo_bug :
    decode 0xBA = .ok (OpCode.new 0xBA .tsx 1 2 .implicit) ∧
    decode 0x9A = .ok (OpCode.new 0x9A .txs 1 2 .implicit) ∧
    tsxProbe.stepState = none ∧
    txsProbe.stepState = none :=
  ⟨rfl, rfl, rfl, rfl⟩

/-- C6 counterexample: after reset the interrupt-disable bit of P is 0,
because CpuFlags::INIT is BREAK2 OR CARRY = 0x21, contradicting the claim
that I is set in the initial value. -/
theorem reset_interrupt_flag_cex :
    (CPU.default.reset).map (fun c => c.status &&& CpuFlags.INTERUPT_DISABLE)
      = some 0 ∧
    CpuFlags.INTERUPT_DISABLE ≠ 0 :=
  ⟨rfl, by decide⟩

/-- C6 amended: reset sets S = 0xFD, A = X = Y = 0, P to the defined
initial value INIT = 0x21 (U and C set, I clear), and PC to the 16-bit
little-endian word at the reset vector 0xFFFC/0xFFFD. -/
theorem reset_registers_amended (c : CPU) :
    c.reset = some { c with
      register_a := 0, register_x := 0, register_y := 0,
      stack_ptr := STACK_RESET, status := CpuFlags.INIT,
      program_counter := (c.memory 0xFFFC % 256) ||| ((c.memory 0xFFFD % 256) <<< 8) } ∧
    CpuFlags.INIT &&& CpuFlags.INTERUPT_DISABLE = 0 ∧
    CpuFlags.INIT &&& CpuFlags.BREAK2 = CpuFlags.BREAK2 ∧
    CpuFlags.INIT &&& CpuFlags.CARRY = CpuFlags.CARRY :=
  ⟨rfl, rfl, rfl, rfl⟩

/-- C9: the claim says every 16-bit address from 0x0000 through 0xFFFF can
be read and written.  The memory array has MEM_LEN = 0xFFFF entries, so
address 0xFFFF itself is out of bounds and both accesses panic, while
0xFFFE is still in bounds. -/
theorem mem_read_out_of_bounds_bug :
    MEM_LEN = 0xFFFF ∧
    CPU.default.mem_read 0xFFFF = none ∧
    CPU.default.mem_write 0xFFFF 0 = none ∧
    CPU.default.mem_read 0xFFFE = some 0 :=
  ⟨rfl, rfl, rfl, rfl⟩

/-- C10: reset leaves the memory content untouched at every address and
only rewrites the six registers. -/
theorem reset_preserves_memory (c : CPU) :
    (c.reset).map (fun c1 => c1.memory) = some c.memory ∧
    (c.reset).map (fun c1 => (c1.register_a, c1.register_x, c1.register_y,
        c1.stack_ptr, c1.status, c1.program_counter)) =
      some (0, 0, 0, STACK_RESET, CpuFlags.INIT,
        (c.memory 0xFFFC % 256) ||| ((c.memory 0xFFFD % 256) <<< 8)) :=
  ⟨rfl, rfl⟩

theorem CpuFlags.containsFlag_bit (s f i : Nat) (hf : f = 2 ^ i) :
    CpuFlags.containsFlag s f = s.testBit i := by
  subst hf
  exact CpuFlags.containsFlag_two_pow s i

theorem CpuFlags.testBit_set_same (s f i : Nat) (b : Bool) (hf : f = 2 ^ i)
    (hi : i < 8) : (CpuFlags.setFlag s f b).testBit i = b := by
  subst hf
  exact CpuFlags.testBit_setFlag_same s i b hi

theorem CpuFlags.testBit_set_diff (s f i j : Nat) (b : Bool) (hf : f = 2 ^ i)
    (hj : j < 8) (hij : i ≠ j) :
    (CpuFlags.setFlag s f b).testBit j = s.testBit j := by
  subst hf
  exact CpuFlags.testBit_setFlag_diff s i j b hj hij

/-- C7: add_to_accumulator computes sum = A + m + C in unbounded (hence at
least 16-bit) arithmetic, sets carry to sum > 0xFF, stores sum mod 256 in
A, sets overflow to ((result XOR m) AND (result XOR old A) AND 0x80) not
zero, and updates Z and N from the new A. -/
theorem add_to_accumulator_spec (c : CPU) (m sum result : Nat)
    (ha : c.register_a < 256) (hm : m < 256)
    (hsum : sum = c.register_a + m +
      (if CpuFlags.containsFlag c.status CpuFlags.CARRY then 1 else 0))
    (hres : result = sum % 256) :
    (c.add_to_accumulator m).register_a = result ∧
    CpuFlags.containsFlag (c.add_to_accumulator m).status CpuFlags.CARRY
      = decide (0xFF < sum) ∧
    CpuFlags.containsFlag (c.add_to_accumulator m).status CpuFlags.OVERFLOW
      = (((result ^^^ m) &&& (result ^^^ c.register_a) &&& 0x80) != 0) ∧
    CpuFlags.containsFlag (c.add_to_accumulator m).status CpuFlags.ZERO
      = (result == 0) ∧
    CpuFlags.containsFlag (c.add_to_accumulator m).status CpuFlags.NEGATIV
      = (result >>> 7 == 1) := by
  subst hsum hres
  unfold CPU.add_to_accumulator CPU.set_accumulator CPU.update_zero_and_negative_flags
    CPU.update_zero_flag CPU.update_negative_flag
  refine ⟨rfl, ?_, ?_, ?_, ?_⟩
  · rw [CpuFlags.containsFlag_bit _ CpuFlags.CARRY 0 rfl,
      CpuFlags.testBit_set_diff _ CpuFlags.NEGATIV 7 0 _ rfl (by norm_num) (by norm_num),
      CpuFlags.testBit_set_diff _ CpuFlags.ZERO 1 0 _ rfl (by norm_num) (by norm_num),
      CpuFlags.testBit_set_diff _ CpuFlags.OVERFLOW 6 0 _ rfl (by norm_num) (by norm_num),
      CpuFlags.testBit_set_same _ CpuFlags.CARRY 0 _ rfl (by norm_num)]
  · rw [CpuFlags.containsFlag_bit _ CpuFlags.OVERFLOW 6 rfl,
      CpuFlags.testBit_set_diff _ CpuFlags.NEGATIV 7 6 _ rfl (by norm_num) (by norm_num),
      CpuFlags.testBit_set_diff _ CpuFlags.ZERO 1 6 _ rfl (by norm_num) (by norm_num),
      CpuFlags.testBit_set_same _ CpuFlags.OVERFLOW 6 _ rfl (by norm_num)]
  · rw [CpuFlags.containsFlag_bit _ CpuFlags.ZERO 1 rfl,
      CpuFlags.testBit_set_diff _ CpuFlags.NEGATIV 7 1 _ rfl (by norm_num) (by norm_num),
      CpuFlags.testBit_set_same _ CpuFlags.ZERO 1 _ rfl (by norm_num)]
  · rw [CpuFlags.containsFlag_bit _ CpuFlags.NEGATIV 7 rfl,
      CpuFlags.testBit_set_same _ CpuFlags.NEGATIV 7 _ rfl (by norm_num)]

/-- C7 witness: the statement instantiated at the default CPU (A = 0,
carry set) and operand 0x10, so sum = 17. -/
theorem add_to_accumulator_spec_witness :
    CPU.default.register_a < 256 ∧ (0x10 : Nat) < 256 ∧
    ((17 : Nat) = CPU.default.register_a + 0x10 +
      (if CpuFlags.containsFlag CPU.default.status CpuFlags.CARRY then 1 else 0)) ∧
    (17 : Nat) = 17 % 256 ∧
    ((CPU.default.add_to_accumulator 0x10).register_a = 17 ∧
     CpuFlags.containsFlag (CPU.default.add_to_accumulator 0x10).status CpuFlags.CARRY
       = decide (0xFF < 17) ∧
     CpuFlags.containsFlag (CPU.default.add_to_accumulator 0x10).status CpuFlags.OVERFLOW
       = ((((17 : Nat) ^^^ 0x10) &&& ((17 : Nat) ^^^ CPU.default.register_a) &&& 0x80) != 0) ∧
     CpuFlags.containsFlag (CPU.default.add_to_accumulator 0x10).status CpuFlags.ZERO
       = ((17 : Nat) == 0) ∧
     CpuFlags.containsFlag (CPU.default.add_to_accumulator 0x10).status CpuFlags.NEGATIV
       = ((17 : Nat) >>> 7 == 1)) :=
  ⟨by decide, by decide, by decide, by decide,
    add_to_accumulator_spec CPU.default 0x10 17 17 (by decide) (by decide)
      (by decide) (by decide)⟩

/-- C8 counterexample: a taken BCC at 0x0600 with displacement 0xFF (-1)
must land on 0x0601 according to the claim, but the step leaves PC at
0x0602: the branch target equals the post-fetch PC, so the post-step
fallback adds the operand length again. -/
theorem branch_minus_one_cex :
    ((branchProbe 0xFF).stepState).map (fun c => c.program_counter) = some 0x602 ∧
    (0x600 + 2 + (0xFF00 + 0xFF)) % 65536 = 0x601 ∧
    (0x602 : Nat) ≠ 0x601 :=
  ⟨rfl, by norm_num, by decide⟩

/-- C8 amended: for each of the eight branch opcodes, when the predicate
holds and the displacement is not 0xFF (-1), the PC after the full step is
old PC + 2 + sign_extend(d) mod 2^16; when the displacement is 0xFF the
branch target coincides with the post-fetch PC, the post-step fallback
fires, and the PC ends at old PC + 2; when the predicate fails the PC
advances to old PC + 2. -/
theorem branch_taken_pc_amended (c : CPU) (code pc d : Nat) (cond : Bool)
    (hcode :
      (code = 0x90 ∧ cond = !(CpuFlags.containsFlag c.status CpuFlags.CARRY)) ∨
      (code = 0xB0 ∧ cond = CpuFlags.containsFlag c.status CpuFlags.CARRY) ∨
      (code = 0xF0 ∧ cond = CpuFlags.containsFlag c.status CpuFlags.ZERO) ∨
      (code = 0xD0 ∧ cond = !(CpuFlags.containsFlag c.status CpuFlags.ZERO)) ∨
      (code = 0x30 ∧ cond = CpuFlags.containsFlag c.status CpuFlags.NEGATIV) ∨
      (code = 0x10 ∧ cond = !(CpuFlags.containsFlag c.status CpuFlags.NEGATIV)) ∨
      (code = 0x50 ∧ cond = !(CpuFlags.containsFlag c.status CpuFlags.OVERFLOW)) ∨
      (code = 0x70 ∧ cond = CpuFlags.containsFlag c.status CpuFlags.OVERFLOW))
    (hpc : c.program_counter = pc) (hle : pc ≤ 0xFFFD)
    (hop : c.memory pc = code) (hd : c.memory (pc + 1) = d) (hdb : d < 256) :
    (c.stepState).map (fun c1 => c1.program_counter)
      = some (if cond then
            (if d = 0xFF then pc + 2
             else (pc + 2 + (if d < 128 then d else 0xFF00 + d)) % 65536)
          else pc + 2) := by
  subst hpc
  have h1 : c.program_counter < MEM_LEN := by unfold MEM_LEN; omega
  have h2 : c.program_counter + 1 < MEM_LEN := by unfold MEM_LEN; omega
  rcases hcode with ⟨hc, hb⟩ | ⟨hc, hb⟩ | ⟨hc, hb⟩ | ⟨hc, hb⟩ | ⟨hc, hb⟩ |
    ⟨hc, hb⟩ | ⟨hc, hb⟩ | ⟨hc, hb⟩ <;> subst hc <;> subst hb
  · have hdec : (decode 0x90).toOption = some (OpCode.new 0x90 .bcc 2 2 .relative) := rfl
    cases hX : CpuFlags.containsFlag c.status CpuFlags.CARRY <;>
      simp [CPU.stepState, CPU.step, CPU.mem_read, h1, h2, hop, hd, hdec,
        CPU.runInstruction, CPU.bcc, CPU.branch, hX, OpCode.new,
        Nat.mod_eq_of_lt hdb] <;>
      (try split_ifs) <;> (try simp) <;> omega
  · have hdec : (decode 0xB0).toOption = some (OpCode.new 0xB0 .bcs 2 2 .relative) := rfl
    cases hX : CpuFlags.containsFlag c.status CpuFlags.CARRY <;>
      simp [CPU.stepState, CPU.step, CPU.mem_read, h1, h2, hop, hd, hdec,
        CPU.runInstruction, CPU.bcs, CPU.branch, hX, OpCode.new,
        Nat.mod_eq_of_lt hdb] <;>
      (try split_ifs) <;> (try simp) <;> omega
  · have hdec : (decode 0xF0).toOption = some (OpCode.new 0xF0 .beq 2 2 .relative) := rfl
    cases hX : CpuFlags.containsFlag c.status CpuFlags.ZERO <;>
      simp [CPU.stepState, CPU.step, CPU.mem_read, h1, h2, hop, hd, hdec,
        CPU.runInstruction, CPU.beq, CPU.branch, hX, OpCode.new,
        Nat.mod_eq_of_lt hdb] <;>
      (try split_ifs) <;> (try simp) <;> omega
  · have hdec : (decode 0xD0).toOption = some (OpCode.new 0xD0 .bne 2 2 .relative) := rfl
    cases hX : CpuFlags.containsFlag c.status CpuFlags.ZERO <;>
      simp [CPU.stepState, CPU.step, CPU.mem_read, h1, h2, hop, hd, hdec,
        CPU.runInstruction, CPU.bne, CPU.branch, hX, OpCode.new,
        Nat.mod_eq_of_lt hdb] <;>
      (try split_ifs) <;> (try simp) <;> omega
  · have hdec : (decode 0x30).toOption = some (OpCode.new 0x30 .bmi 2 2 .relative) := rfl
    cases hX : CpuFlags.containsFlag c.status CpuFlags.NEGATIV <;>
      simp [CPU.stepState, CPU.step, CPU.mem_read, h1, h2, hop, hd, hdec,
        CPU.runInstruction, CPU.bmi, CPU.branch, hX, OpCode.new,
        Nat.mod_eq_of_lt hdb] <;>
      (try split_ifs) <;> (try simp) <;> omega
  · have hdec : (decode 0x10).toOption = some (OpCode.new 0x10 .bpl 2 2 .relative) := rfl
    cases hX : CpuFlags.containsFlag c.status CpuFlags.NEGATIV <;>
      simp [CPU.stepState, CPU.step, CPU.mem_read, h1, h2, hop, hd, hdec,
        CPU.runInstruction, CPU.bpl, CPU.branch, hX, OpCode.new,
        Nat.mod_eq_of_lt hdb] <;>
      (try split_ifs) <;> (try simp) <;> omega
  · have hdec : (decode 0x50).toOption = some (OpCode.new 0x50 .bvc 2 2 .relative) := rfl
    cases hX : CpuFlags.containsFlag c.status CpuFlags.OVERFLOW <;>
      simp [CPU.stepState, CPU.step, CPU.mem_read, h1, h2, hop, hd, hdec,
        CPU.runInstruction, CPU.bvc, CPU.branch, hX, OpCode.new,
        Nat.mod_eq_of_lt hdb] <;>
      (try split_ifs) <;> (try simp) <;> omega
  · have hdec : (decode 0x70).toOption = some (OpCode.new 0x70 .bvs 2 2 .relative) := rfl
    cases hX : CpuFlags.containsFlag c.status CpuFlags.OVERFLOW <;>
      simp [CPU.stepState, CPU.step, CPU.mem_read, h1, h2, hop, hd, hdec,
        CPU.runInstruction, CPU.bvs, CPU.branch, hX, OpCode.new,
        Nat.mod_eq_of_lt hdb] <;>
      (try split_ifs) <;> (try simp) <;> omega

/-- C8 witness: the amended statement instantiated at a taken BCC at
0x0600 with displacement 5. -/
theorem branch_taken_pc_amended_witness :
    ((0x90 : Nat) = 0x90 ∧
      (true : Bool) = !(CpuFlags.containsFlag (branchProbe 5).status CpuFlags.CARRY)) ∧
    (branchProbe 5).program_counter = 0x600 ∧ (0x600 : Nat) ≤ 0xFFFD ∧
    (branchProbe 5).memory 0x600 = 0x90 ∧
    (branchProbe 5).memory (0x600 + 1) = 5 ∧ (5 : Nat) < 256 ∧
    ((branchProbe 5).stepState).map (fun c1 => c1.program_counter)
      = some (if (true : Bool) then
            (if (5 : Nat) = 0xFF then 0x600 + 2
             else (0x600 + 2 + (if (5 : Nat) < 128 then 5 else 0xFF00 + 5)) % 65536)
          else 0x600 + 2) :=
  ⟨⟨rfl, by decide⟩, rfl, by decide, rfl, rfl, by decide,
    branch_taken_pc_amended (branchProbe 5) 0x90 0x600 5 true
      (Or.inl ⟨rfl, by decide⟩) rfl (by decide) rfl rfl (by decide)⟩
